import Mathlib

/-!
Shallow embedding of the COVID-19 discrete Markov-chain simulation notebook
(`src/projects/interactive_markov_covid-16.ipynb`).

Conventions of the embedding:
* Python floats are modelled by exact rationals (`ℚ`); all spec-level
  "within floating-point tolerance" statements are settled exactly.
* Population vectors are `Fin 6 → ℚ` in the notebook's canonical order
  `H, C, S, X, D, I` (indices `0..5`, the notebook's `state_index`).
* A numpy division whose denominator is `0` yields no valid number
  (`nan` / `ZeroDivisionError` in the source); such computations are
  modelled as `Option`-valued, `none` standing for the invalid outcome.
* Python's `int(...)` truncation toward zero is modelled by `pyInt`.
-/

namespace Covid

/-- The three countermeasure scenarios for the reproduction number
(`R_0 = [2.5, 1.7, 0.9]` in the notebook): no countermeasures, mild
countermeasures, strict countermeasures. -/
def R_0 : List ℚ := [2.5, 1.7, 0.9]

/-- `lenght_of_sickness_for_R_0 = 20` days (name kept from the source). -/
def lenght_of_sickness_for_R_0 : ℚ := 20

/-- `asymptomatic_carriers_vs_all = 0.60` (Vo Euganeo study). -/
def asymptomatic_carriers_vs_all : ℚ := 0.60

/-- `prob_symptomatic_from_carrier = 1 - asymptomatic_carriers_vs_all`. -/
def prob_symptomatic_from_carrier : ℚ := 1 - asymptomatic_carriers_vs_all

/-- `prob_immune_from_carrier = 1 - prob_symptomatic_from_carrier`. -/
def prob_immune_from_carrier : ℚ := 1 - prob_symptomatic_from_carrier

/-- The CDC weighted sum used for the hospitalization share
(`w_sum_cdc` in the notebook, transcribed verbatim). -/
def w_sum_cdc : ℚ :=
  (123 * ((1.6 : ℚ) + 2.5) / 2 + 705 * ((14.3 : ℚ) + 20.8) / 2 +
      429 * ((21.2 : ℚ) + 28.3) / 2 + 429 * ((20.5 : ℚ) + 30.1) / 2 +
      409 * ((28.6 : ℚ) + 43.5) / 2 + 210 * ((30.5 : ℚ) + 58.7) / 2 +
      144 * ((31.3 : ℚ) + 70.3) / 2) / 2449

/-- `prob_hospitalizable_from_symptomatic = w_sum_cdc / 100`. -/
def prob_hospitalizable_from_symptomatic : ℚ := w_sum_cdc / 100

/-- `prob_immune_from_symptomatic = 1 - prob_hospitalizable_from_symptomatic`. -/
def prob_immune_from_symptomatic : ℚ := 1 - prob_hospitalizable_from_symptomatic

/-- `dr_cdc = ((1.8+3.4)/2) / prob_hospitalizable_from_symptomatic`. -/
def dr_cdc : ℚ := (((1.8 : ℚ) + 3.4) / 2) / prob_hospitalizable_from_symptomatic

/-- `prob_dead_from_hospitalizable = dr_cdc / 100`. -/
def prob_dead_from_hospitalizable : ℚ := dr_cdc / 100

/-- `prob_immune_from_hospitalizable = 1 - prob_dead_from_hospitalizable`. -/
def prob_immune_from_hospitalizable : ℚ := 1 - prob_dead_from_hospitalizable

/-- Average days from first contact to first symptoms. -/
def carrier_to_symptomatic_avg : ℚ := 6

/-- Average days from carrying to immunity. -/
def carrier_to_immune_avg : ℚ := 10

/-- Average days from symptomatic to immunity. -/
def symptomatic_to_immune_avg : ℚ := 11

/-- Average days from symptomatic to hospitalizable. -/
def symptomatic_to_hospitalizable_avg : ℚ := 5

/-- Average days from hospitalizable to death. -/
def hospitalizable_to_death_avg : ℚ := 4

/-- Average days from hospitalizable to immunity. -/
def hospitalizable_to_immune_avg : ℚ := 12

/-- The Parameter Derivation rule shared by all six derived rates: the one-day
transition probability is `destination_probability * 1 / average_duration`,
exactly as each of `cs, ci, sx, si, xd, xi` is computed in the notebook.
The computation is total: the source contains no validation and no error
path of any kind around these expressions. -/
def derived_rate (destination_probability average_duration : ℚ) : ℚ :=
  destination_probability * 1 / average_duration

/-- One-day probability Carrier → Symptomatic. -/
def cs : ℚ := derived_rate prob_symptomatic_from_carrier carrier_to_symptomatic_avg

/-- One-day probability Carrier → Immune. -/
def ci : ℚ := derived_rate prob_immune_from_carrier carrier_to_immune_avg

/-- One-day probability Symptomatic → Hospitalizable. -/
def sx : ℚ := derived_rate prob_hospitalizable_from_symptomatic symptomatic_to_hospitalizable_avg

/-- One-day probability Symptomatic → Immune. -/
def si : ℚ := derived_rate prob_immune_from_symptomatic symptomatic_to_immune_avg

/-- One-day probability Hospitalizable → Dead. -/
def xd : ℚ := derived_rate prob_dead_from_hospitalizable hospitalizable_to_death_avg

/-- One-day probability Hospitalizable → Immune. -/
def xi : ℚ := derived_rate prob_immune_from_hospitalizable hospitalizable_to_immune_avg

/-- The transition matrix literal `covid_19` from `covid_19_one_day`,
parameterized by the day's Healthy → Carrier probability `hc`.
Rows/columns are in state order `H, C, S, X, D, I`. -/
def covid_19 (hc : ℚ) : Fin 6 → Fin 6 → ℚ :=
  ![![1 - hc, hc, 0, 0, 0, 0],
    ![0, 1 - cs - ci, cs, 0, 0, ci],
    ![0, 0, 1 - sx - si, sx, 0, si],
    ![0, 0, 0, 1 - xd - xi, xd, xi],
    ![0, 0, 0, 0, 1, 0],
    ![0, 0, 0, 0, 0, 1]]

/-- The contact-pool denominator `H + C + S + X + I` (Dead excluded). -/
def contact_pool (population : Fin 6 → ℚ) : ℚ :=
  population 0 + population 1 + population 2 + population 3 + population 5

/-- The day's Healthy → Carrier probability:
`hc = r0 / lenght_of_sickness_for_R_0 * (C + S + X) / (H + C + S + X + I)`. -/
def hc_val (r0 : ℚ) (population : Fin 6 → ℚ) : ℚ :=
  r0 / lenght_of_sickness_for_R_0 *
    ((population 1 + population 2 + population 3) / contact_pool population)

/-- `covid_19_one_day(population, countermeasures)`: look up
`R_0[countermeasures]` (a Python `IndexError` for an out-of-range index is
`none`), compute `hc`, build the matrix `covid_19`, and advance one step by
the vector–matrix product `np.dot(population, covid_19)`.  A zero contact
pool makes the `hc` division invalid (numpy `0/0`), modelled as `none`. -/
def covid_19_one_day (population : Fin 6 → ℚ) (countermeasures : ℕ) :
    Option (Fin 6 → ℚ) :=
  (R_0.get? countermeasures).bind fun r0 =>
    if contact_pool population = 0 then none
    else
      some (fun j => ∑ i, population i * covid_19 (hc_val r0 population) i j)

/-- Python's `int(...)` applied to a float: truncation toward zero. -/
def pyInt (q : ℚ) : ℤ := if 0 ≤ q then ⌊q⌋ else -⌊-q⌋

/-- The countermeasure update performed at the top of each loop iteration of
`simulate_covid19`: first `if day >= social_distance_after: countermeasures = 1`,
then `if day >= lockdown_after: countermeasures = 2`. -/
def cm_update (social_distance_after lockdown_after day cm : ℕ) : ℕ :=
  let cm1 := if social_distance_after ≤ day then 1 else cm
  if lockdown_after ≤ day then 2 else cm1

/-- The countermeasure value `simulate_covid19` uses on day `d`, i.e. the
chain of `cm_update` steps starting from `countermeasures = 0` on day `0`. -/
def loopCm (social_distance_after lockdown_after : ℕ) : ℕ → ℕ
  | 0 => cm_update social_distance_after lockdown_after 0 0
  | d + 1 =>
    cm_update social_distance_after lockdown_after (d + 1)
      (loopCm social_distance_after lockdown_after d)

/-- The day-stepping loop of `simulate_covid19`: argument order is
remaining days, current day index, carried countermeasure value, current
population-fraction vector.  Each iteration updates the countermeasures,
advances one day with `covid_19_one_day` and appends the resulting vector;
a failing day (`none`) aborts the whole run. -/
def sim_loop (social_distance_after lockdown_after : ℕ) :
    ℕ → ℕ → ℕ → (Fin 6 → ℚ) → Option (List (Fin 6 → ℚ))
  | 0, _, _, _ => some []
  | n + 1, day, cm, p =>
    let cm' := cm_update social_distance_after lockdown_after day cm
    (covid_19_one_day p cm').bind fun p' =>
      (sim_loop social_distance_after lockdown_after n (day + 1) cm' p').map
        (fun evo => p' :: evo)

/-- Seed back-derivation, first step:
`Hospitalizable = Dead * (1 - prob_dead_from_hospitalizable) / prob_dead_from_hospitalizable`. -/
def seed_hospitalizable (Dead : ℚ) : ℚ :=
  Dead * (1 - prob_dead_from_hospitalizable) / prob_dead_from_hospitalizable

/-- Seed back-derivation, second step:
`Symptomatic = Hospitalizable * (1 - prob_hospitalizable_from_symptomatic) / prob_hospitalizable_from_symptomatic`. -/
def seed_symptomatic (Dead : ℚ) : ℚ :=
  seed_hospitalizable Dead * (1 - prob_hospitalizable_from_symptomatic) /
    prob_hospitalizable_from_symptomatic

/-- Seed back-derivation, third step:
`Carriers = Symptomatic * (1 - prob_symptomatic_from_carrier) / prob_symptomatic_from_carrier`. -/
def seed_carriers (Dead : ℚ) : ℚ :=
  seed_symptomatic Dead * (1 - prob_symptomatic_from_carrier) /
    prob_symptomatic_from_carrier

/-- The seed population vector
`[Healthy, Carriers, Symptomatic, Hospitalizable, Dead, Immune]` of
`simulate_covid19` before normalization. -/
def seed_vector (Healthy Dead Immune : ℚ) : Fin 6 → ℚ :=
  ![Healthy, seed_carriers Dead, seed_symptomatic Dead, seed_hospitalizable Dead,
    Dead, Immune]

/-- `all_population`: the sum of the seed population vector. -/
def seed_total (Healthy Dead Immune : ℚ) : ℚ :=
  Healthy + seed_carriers Dead + seed_symptomatic Dead + seed_hospitalizable Dead +
    Dead + Immune

/-- The normalized seed vector (`num / all_population` for each entry).
Normalizing an all-zero seed is a Python `ZeroDivisionError`; `simulate_covid19`
guards for it, so this definition is only consulted when the total is nonzero. -/
def seed_fraction (Healthy Dead Immune : ℚ) : Fin 6 → ℚ :=
  fun j => seed_vector Healthy Dead Immune j / seed_total Healthy Dead Immune

/-- Reporting step performed for each appended day:
`state = [int(num * all_population) for num in population_vector]`. -/
def report (all_population : ℚ) (p : Fin 6 → ℚ) : Fin 6 → ℤ :=
  fun j => pyInt (p j * all_population)

/-- `simulate_covid19(Healthy, Dead, Immune, total_days, social_distance_after,
lockdown_after)`: back-derive the upstream seed compartments, normalize by the
total population, then run the day loop and report each day's vector as
truncated head-counts.  A zero total population makes the normalization a
Python `ZeroDivisionError`, modelled as `none`. -/
def simulate_covid19 (Healthy Dead Immune : ℚ)
    (total_days social_distance_after lockdown_after : ℕ) :
    Option (List (Fin 6 → ℤ)) :=
  if seed_total Healthy Dead Immune = 0 then none
  else
    (sim_loop social_distance_after lockdown_after total_days 0 0
        (seed_fraction Healthy Dead Immune)).map
      (fun evo => evo.map (report (seed_total Healthy Dead Immune)))

/-- Python runtime error kinds relevant to the spec's error-handling claims.
`configurationError` is the spec's `ConfigurationError`; the source program
never constructs it. -/
inductive PyError where
  | zeroDivisionError
  | configurationError
deriving DecidableEq

/-- The seed back-derivation of `simulate_covid19`, abstracted over the three
ratio constants it divides by.  Python float division by zero raises an
uncaught `ZeroDivisionError`; that outcome is the `Except.error` value.  The
source contains no validation before the divisions and no `ConfigurationError`.
Result order: `(Carriers, Symptomatic, Hospitalizable)`. -/
def back_derive (Dead pdh phs psc : ℚ) : Except PyError (ℚ × ℚ × ℚ) :=
  if pdh = 0 then .error .zeroDivisionError
  else
    let Hospitalizable := Dead * (1 - pdh) / pdh
    if phs = 0 then .error .zeroDivisionError
    else
      let Symptomatic := Hospitalizable * (1 - phs) / phs
      if psc = 0 then .error .zeroDivisionError
      else .ok (Symptomatic * (1 - psc) / psc, Symptomatic, Hospitalizable)

/-- The policy schedule as the spec describes it: phases
`(index, onset day)` in order of the phase list, onset `0` for
"no countermeasures", then the social-distancing and lockdown onsets. -/
def phase_schedule (social_distance_after lockdown_after : ℕ) : List (ℕ × ℕ) :=
  [(0, 0), (1, social_distance_after), (2, lockdown_after)]

/-- Phase selection in the spec's words: the active phase on day `d` is the
last phase of the schedule whose onset day is `≤ d`.  This definition follows
the specification text, to be compared with the loop's `loopCm`. -/
def spec_active_phase (social_distance_after lockdown_after d : ℕ) : ℕ :=
  ((phase_schedule social_distance_after lockdown_after).filter
      (fun ph => ph.2 ≤ d)).foldl (fun _ ph => ph.1) 0

/-! ### Exact values of the derived constants -/

lemma psc_eq : prob_symptomatic_from_carrier = 2 / 5 := by
  norm_num [prob_symptomatic_from_carrier, asymptomatic_carriers_vs_all]

lemma pic_eq : prob_immune_from_carrier = 3 / 5 := by
  norm_num [prob_immune_from_carrier, psc_eq]

lemma w_sum_cdc_eq : w_sum_cdc = 65522 / 2449 := by
  norm_num [w_sum_cdc]

lemma phs_eq : prob_hospitalizable_from_symptomatic = 32761 / 122450 := by
  norm_num [prob_hospitalizable_from_symptomatic, w_sum_cdc_eq]

lemma pis_eq : prob_immune_from_symptomatic = 89689 / 122450 := by
  norm_num [prob_immune_from_symptomatic, phs_eq]

lemma pdh_eq : prob_dead_from_hospitalizable = 31837 / 327610 := by
  norm_num [prob_dead_from_hospitalizable, dr_cdc, phs_eq]

lemma pih_eq : prob_immune_from_hospitalizable = 295773 / 327610 := by
  norm_num [prob_immune_from_hospitalizable, pdh_eq]

lemma cs_eq : cs = 1 / 15 := by
  norm_num [cs, derived_rate, psc_eq, carrier_to_symptomatic_avg]

lemma ci_eq : ci = 3 / 50 := by
  norm_num [ci, derived_rate, pic_eq, carrier_to_immune_avg]

lemma sx_eq : sx = 32761 / 612250 := by
  norm_num [sx, derived_rate, phs_eq, symptomatic_to_hospitalizable_avg]

lemma si_eq : si = 89689 / 1346950 := by
  norm_num [si, derived_rate, pis_eq, symptomatic_to_immune_avg]

lemma xd_eq : xd = 31837 / 1310440 := by
  norm_num [xd, derived_rate, pdh_eq, hospitalizable_to_death_avg]

lemma xi_eq : xi = 98591 / 1310440 := by
  norm_num [xi, derived_rate, pih_eq, hospitalizable_to_immune_avg]

/-! ### Basic facts about the transition matrix and the one-day step -/

@[simp] lemma cons_val_five {α : Type} {m : ℕ} (x : α)
    (u : Fin (m + 1 + 1 + 1 + 1 + 1) → α) :
    Matrix.vecCons x u 5 =
      Matrix.vecHead (Matrix.vecTail (Matrix.vecTail (Matrix.vecTail (Matrix.vecTail u)))) :=
  rfl

lemma cs_nonneg : (0:ℚ) ≤ cs := by rw [cs_eq]; norm_num
lemma ci_nonneg : (0:ℚ) ≤ ci := by rw [ci_eq]; norm_num
lemma sx_nonneg : (0:ℚ) ≤ sx := by rw [sx_eq]; norm_num
lemma si_nonneg : (0:ℚ) ≤ si := by rw [si_eq]; norm_num
lemma xd_nonneg : (0:ℚ) ≤ xd := by rw [xd_eq]; norm_num
lemma xi_nonneg : (0:ℚ) ≤ xi := by rw [xi_eq]; norm_num
lemma cs_ci_le_one : cs + ci ≤ 1 := by rw [cs_eq, ci_eq]; norm_num
lemma sx_si_le_one : sx + si ≤ 1 := by rw [sx_eq, si_eq]; norm_num
lemma xd_xi_le_one : xd + xi ≤ 1 := by rw [xd_eq, xi_eq]; norm_num
lemma xd_lt_one : xd < 1 := by rw [xd_eq]; norm_num

lemma covid_19_row_sum (hc : ℚ) (i : Fin 6) : ∑ j, covid_19 hc i j = 1 := by
  fin_cases i <;> simp [covid_19, Fin.sum_univ_six] <;> ring

lemma R_0_get_cases (cm : ℕ) (r0 : ℚ) (h : R_0.get? cm = some r0) :
    r0 = 5 / 2 ∨ r0 = 17 / 10 ∨ r0 = 9 / 10 := by
  rcases cm with _ | _ | _ | cm
  · left
    simp [R_0] at h
    norm_num [← h]
  · right; left
    simp [R_0] at h
    norm_num [← h]
  · right; right
    simp [R_0] at h
    norm_num [← h]
  · simp [R_0] at h

lemma R_0_get_bounds (cm : ℕ) (r0 : ℚ) (h : R_0.get? cm = some r0) :
    0 ≤ r0 ∧ r0 ≤ 5 / 2 := by
  rcases R_0_get_cases cm r0 h with h' | h' | h' <;> rw [h'] <;> norm_num

lemma covid_19_one_day_eq (p : Fin 6 → ℚ) (cm : ℕ) (r0 : ℚ)
    (hr : R_0.get? cm = some r0) (hd : contact_pool p ≠ 0) :
    covid_19_one_day p cm =
      some ![p 0 * (1 - hc_val r0 p),
            p 0 * hc_val r0 p + p 1 * (1 - cs - ci),
            p 1 * cs + p 2 * (1 - sx - si),
            p 2 * sx + p 3 * (1 - xd - xi),
            p 3 * xd + p 4,
            p 1 * ci + p 2 * si + p 3 * xi + p 5] := by
  unfold covid_19_one_day
  rw [hr, Option.some_bind, if_neg hd]
  congr 1
  funext j
  fin_cases j <;> simp [covid_19, Fin.sum_univ_six, Matrix.vecHead, Matrix.vecTail] <;> ring

lemma hc_val_nonneg (r0 : ℚ) (p : Fin 6 → ℚ) (hr0 : 0 ≤ r0)
    (hnn : ∀ i, 0 ≤ p i) (hd : 0 < contact_pool p) : 0 ≤ hc_val r0 p := by
  unfold hc_val lenght_of_sickness_for_R_0
  have h1 : (0:ℚ) ≤ p 1 + p 2 + p 3 := by
    have := hnn 1; have := hnn 2; have := hnn 3; linarith
  positivity

lemma hc_val_le_one (r0 : ℚ) (p : Fin 6 → ℚ) (hr0 : 0 ≤ r0) (hr0' : r0 ≤ 5 / 2)
    (hnn : ∀ i, 0 ≤ p i) (hd : 0 < contact_pool p) : hc_val r0 p ≤ 1 := by
  unfold hc_val lenght_of_sickness_for_R_0
  have h1 : p 1 + p 2 + p 3 ≤ contact_pool p := by
    have := hnn 0; have := hnn 5; unfold contact_pool; linarith
  have h2 : (p 1 + p 2 + p 3) / contact_pool p ≤ 1 := by
    rw [div_le_one hd]; exact h1
  have h3 : (0:ℚ) ≤ (p 1 + p 2 + p 3) / contact_pool p := by
    have h4 : (0:ℚ) ≤ p 1 + p 2 + p 3 := by
      have := hnn 1; have := hnn 2; have := hnn 3; linarith
    positivity
  calc r0 / 20 * ((p 1 + p 2 + p 3) / contact_pool p)
      ≤ 5 / 2 / 20 * 1 := by
        apply mul_le_mul (by linarith) h2 h3 (by norm_num)
    _ ≤ 1 := by norm_num

/-- One simulated day, packaged: existence of the next vector together with
the invariants the simulation loop needs. -/
lemma covid_19_one_day_step (p : Fin 6 → ℚ) (cm : ℕ) (r0 : ℚ)
    (hr : R_0.get? cm = some r0)
    (hnn : ∀ i, 0 ≤ p i) (hd : 0 < contact_pool p) :
    ∃ p', covid_19_one_day p cm = some p' ∧
      (∀ i, 0 ≤ p' i) ∧ 0 < contact_pool p' ∧
      (∑ i, p' i) = (∑ i, p i) ∧
      p 4 ≤ p' 4 ∧ p 5 ≤ p' 5 := by
  obtain ⟨hr0, hr0'⟩ := R_0_get_bounds cm r0 hr
  have hhc0 : 0 ≤ hc_val r0 p := hc_val_nonneg r0 p hr0 hnn hd
  have hhc1 : hc_val r0 p ≤ 1 := hc_val_le_one r0 p hr0 hr0' hnn hd
  have h0 := hnn 0; have h1 := hnn 1; have h2 := hnn 2
  have h3 := hnn 3; have h4 := hnn 4; have h5 := hnn 5
  have m0 : (0:ℚ) ≤ p 0 * (1 - hc_val r0 p) := mul_nonneg h0 (by linarith)
  have m0' : (0:ℚ) ≤ p 0 * hc_val r0 p := mul_nonneg h0 hhc0
  have m1 : (0:ℚ) ≤ p 1 * (1 - cs - ci) :=
    mul_nonneg h1 (by have := cs_ci_le_one; linarith)
  have m1' : (0:ℚ) ≤ p 1 * cs := mul_nonneg h1 cs_nonneg
  have m1'' : (0:ℚ) ≤ p 1 * ci := mul_nonneg h1 ci_nonneg
  have m2 : (0:ℚ) ≤ p 2 * (1 - sx - si) :=
    mul_nonneg h2 (by have := sx_si_le_one; linarith)
  have m2' : (0:ℚ) ≤ p 2 * sx := mul_nonneg h2 sx_nonneg
  have m2'' : (0:ℚ) ≤ p 2 * si := mul_nonneg h2 si_nonneg
  have m3 : (0:ℚ) ≤ p 3 * (1 - xd - xi) :=
    mul_nonneg h3 (by have := xd_xi_le_one; linarith)
  have m3' : (0:ℚ) ≤ p 3 * xd := mul_nonneg h3 xd_nonneg
  have m3'' : (0:ℚ) ≤ p 3 * xi := mul_nonneg h3 xi_nonneg
  refine ⟨_, covid_19_one_day_eq p cm r0 hr (ne_of_gt hd), ?_, ?_, ?_, ?_, ?_⟩
  · intro i
    fin_cases i <;> simp <;> linarith
  · have hpool : contact_pool
        ![p 0 * (1 - hc_val r0 p),
          p 0 * hc_val r0 p + p 1 * (1 - cs - ci),
          p 1 * cs + p 2 * (1 - sx - si),
          p 2 * sx + p 3 * (1 - xd - xi),
          p 3 * xd + p 4,
          p 1 * ci + p 2 * si + p 3 * xi + p 5] =
        contact_pool p - xd * p 3 := by
      simp [contact_pool]
      ring
    rw [hpool]
    have h3le : p 3 ≤ contact_pool p := by unfold contact_pool; linarith
    have := xd_nonneg
    have := xd_lt_one
    nlinarith [mul_le_mul_of_nonneg_left h3le xd_nonneg]
  · simp [Fin.sum_univ_six]
    ring
  · simp
    linarith
  · simp
    linarith

/-! ### Truncation (`pyInt`) facts -/

lemma pyInt_eq_floor (q : ℚ) (hq : 0 ≤ q) : pyInt q = ⌊q⌋ := if_pos hq

lemma pyInt_le (q : ℚ) (hq : 0 ≤ q) : (pyInt q : ℚ) ≤ q := by
  rw [pyInt_eq_floor q hq]; exact Int.floor_le q

lemma pyInt_gt (q : ℚ) (hq : 0 ≤ q) : q - 1 < (pyInt q : ℚ) := by
  rw [pyInt_eq_floor q hq]; exact Int.sub_one_lt_floor q

lemma pyInt_mono (a b : ℚ) (ha : 0 ≤ a) (hab : a ≤ b) : pyInt a ≤ pyInt b := by
  rw [pyInt_eq_floor a ha, pyInt_eq_floor b (le_trans ha hab)]
  exact Int.floor_le_floor hab

/-! ### The countermeasure state machine -/

lemma cm_update_eq (sda lda day cm : ℕ) :
    cm_update sda lda day cm =
      if lda ≤ day then 2 else if sda ≤ day then 1 else cm := rfl

lemma cm_update_le_two (sda lda day cm : ℕ) (h : cm ≤ 2) :
    cm_update sda lda day cm ≤ 2 := by
  rw [cm_update_eq]
  split_ifs <;> omega

lemma R_0_get_exists (cm : ℕ) (h : cm ≤ 2) : ∃ r0, R_0.get? cm = some r0 := by
  interval_cases cm <;> exact ⟨_, rfl⟩

lemma loopCm_eq (sda lda d : ℕ) :
    loopCm sda lda d = if lda ≤ d then 2 else if sda ≤ d then 1 else 0 := by
  induction d with
  | zero => rfl
  | succ d ih =>
    show cm_update sda lda (d + 1) (loopCm sda lda d) = _
    rw [cm_update_eq, ih]
    split_ifs <;> omega

lemma loopCm_le_two (sda lda d : ℕ) : loopCm sda lda d ≤ 2 := by
  rw [loopCm_eq]; split_ifs <;> omega

/-- On its first day (`day = 0`, carried `countermeasures = 0`) the loop body
of `simulate_covid19` consults exactly the phase `loopCm sda lda 0`. -/
lemma sim_loop_cm_zero (sda lda n : ℕ) (p : Fin 6 → ℚ) :
    sim_loop sda lda (n + 1) 0 0 p =
      (covid_19_one_day p (loopCm sda lda 0)).bind fun p' =>
        (sim_loop sda lda n 1 (loopCm sda lda 0) p').map (fun evo => p' :: evo) :=
  rfl

/-- On day `day + 1`, with the carried countermeasure value produced on the
previous day, the loop body of `simulate_covid19` consults exactly the phase
`loopCm sda lda (day + 1)`. -/
lemma sim_loop_cm_succ (sda lda n day : ℕ) (p : Fin 6 → ℚ) :
    sim_loop sda lda (n + 1) (day + 1) (loopCm sda lda day) p =
      (covid_19_one_day p (loopCm sda lda (day + 1))).bind fun p' =>
        (sim_loop sda lda n (day + 2) (loopCm sda lda (day + 1)) p').map
          (fun evo => p' :: evo) :=
  rfl

lemma spec_active_phase_eq (sda lda d : ℕ) :
    spec_active_phase sda lda d = if lda ≤ d then 2 else if sda ≤ d then 1 else 0 := by
  unfold spec_active_phase phase_schedule
  by_cases h2 : lda ≤ d <;> by_cases h1 : sda ≤ d <;>
    simp [List.filter, List.foldl, h1, h2, Nat.zero_le]

/-! ### The day loop: invariants along the whole run -/

/-- Master invariant lemma for `sim_loop`: from any in-range countermeasure
value and any nonnegative population-fraction vector with positive contact
pool, the loop succeeds, produces one vector per remaining day, keeps every
entry nonnegative, preserves the total exactly, and never decreases the Dead
(index 4) and Immune (index 5) entries. -/
lemma sim_loop_spec (sda lda : ℕ) :
    ∀ (n day cm : ℕ) (p : Fin 6 → ℚ), cm ≤ 2 → (∀ i, 0 ≤ p i) →
    0 < contact_pool p →
    ∃ tr, sim_loop sda lda n day cm p = some tr ∧ tr.length = n ∧
      (∀ (k : ℕ) (hk : k < tr.length),
        (∀ i, 0 ≤ tr.get ⟨k, hk⟩ i) ∧ (∑ i, tr.get ⟨k, hk⟩ i) = (∑ i, p i)) ∧
      (∀ hk : 0 < tr.length,
        covid_19_one_day p (cm_update sda lda day cm) = some (tr.get ⟨0, hk⟩)) ∧
      (∀ (k : ℕ) (hk : k + 1 < tr.length),
        tr.get ⟨k, Nat.lt_of_succ_lt hk⟩ 4 ≤ tr.get ⟨k + 1, hk⟩ 4 ∧
        tr.get ⟨k, Nat.lt_of_succ_lt hk⟩ 5 ≤ tr.get ⟨k + 1, hk⟩ 5) ∧
      (∀ hk : 0 < tr.length,
        p 4 ≤ tr.get ⟨0, hk⟩ 4 ∧ p 5 ≤ tr.get ⟨0, hk⟩ 5) := by
  intro n
  induction n with
  | zero =>
    intro day cm p hcm hnn hd
    refine ⟨[], rfl, rfl, ?_, ?_, ?_, ?_⟩
    · intro k hk; exact absurd hk (by simp)
    · intro hk; exact absurd hk (by simp)
    · intro k hk; exact absurd hk (by simp)
    · intro hk; exact absurd hk (by simp)
  | succ n ih =>
    intro day cm p hcm hnn hd
    obtain ⟨r0, hr0⟩ := R_0_get_exists (cm_update sda lda day cm)
      (cm_update_le_two sda lda day cm hcm)
    obtain ⟨p', hstep, hnn', hd', hsum', hD, hI⟩ :=
      covid_19_one_day_step p (cm_update sda lda day cm) r0 hr0 hnn hd
    obtain ⟨tr', hloop', hlen', hall', hhead', hmono', hfirst'⟩ :=
      ih (day + 1) (cm_update sda lda day cm) p'
        (cm_update_le_two sda lda day cm hcm) hnn' hd'
    have hget0 : ∀ h : 0 < (p' :: tr').length, (p' :: tr').get ⟨0, h⟩ = p' :=
      fun _ => rfl
    have hgetS : ∀ (k : ℕ) (h : k + 1 < (p' :: tr').length),
        (p' :: tr').get ⟨k + 1, h⟩ = tr'.get ⟨k, Nat.lt_of_succ_lt_succ h⟩ :=
      fun _ _ => rfl
    refine ⟨p' :: tr', ?_, by simp [hlen'], ?_, ?_, ?_, ?_⟩
    · show (covid_19_one_day p (cm_update sda lda day cm)).bind _ = _
      rw [hstep, Option.some_bind, hloop', Option.map_some']
    · intro k hk
      match k, hk with
      | 0, hk => exact ⟨by rw [hget0]; exact hnn', by rw [hget0, hsum']⟩
      | k + 1, hk =>
        have hk' : k < tr'.length := Nat.lt_of_succ_lt_succ hk
        refine ⟨?_, ?_⟩
        · rw [hgetS]; exact (hall' k hk').1
        · rw [hgetS, (hall' k hk').2, hsum']
    · intro hk
      rw [hget0]
      exact hstep
    · intro k hk
      match k, hk with
      | 0, hk =>
        have htr' : 0 < tr'.length := Nat.lt_of_succ_lt_succ hk
        rw [hget0, hgetS]
        exact hfirst' htr'
      | k + 1, hk =>
        have hk' : k + 1 < tr'.length := Nat.lt_of_succ_lt_succ hk
        rw [hgetS, hgetS]
        exact hmono' k hk'
    · intro hk
      rw [hget0]
      exact ⟨hD, hI⟩

/-! ### Seed back-derivation facts -/

lemma seed_hospitalizable_eq (Dead : ℚ) :
    seed_hospitalizable Dead = Dead * (295773 / 31837) := by
  rw [seed_hospitalizable, pdh_eq]; ring

lemma seed_symptomatic_eq (Dead : ℚ) :
    seed_symptomatic Dead = Dead * (295773 / 31837) * (89689 / 32761) := by
  rw [seed_symptomatic, seed_hospitalizable_eq, phs_eq]; ring

lemma seed_carriers_eq (Dead : ℚ) :
    seed_carriers Dead = Dead * (295773 / 31837) * (89689 / 32761) * (3 / 2) := by
  rw [seed_carriers, seed_symptomatic_eq, psc_eq]; ring

lemma seed_hospitalizable_nonneg (Dead : ℚ) (h : 0 ≤ Dead) :
    0 ≤ seed_hospitalizable Dead := by
  rw [seed_hospitalizable_eq]; positivity

lemma seed_symptomatic_nonneg (Dead : ℚ) (h : 0 ≤ Dead) :
    0 ≤ seed_symptomatic Dead := by
  rw [seed_symptomatic_eq]; positivity

lemma seed_carriers_nonneg (Dead : ℚ) (h : 0 ≤ Dead) :
    0 ≤ seed_carriers Dead := by
  rw [seed_carriers_eq]; positivity

lemma seed_total_pos (Healthy Dead Immune : ℚ) (h1 : 0 ≤ Healthy) (h2 : 0 ≤ Dead)
    (h3 : 0 ≤ Immune) (h4 : 0 < Healthy + Dead + Immune) :
    0 < seed_total Healthy Dead Immune := by
  unfold seed_total
  have := seed_hospitalizable_nonneg Dead h2
  have := seed_symptomatic_nonneg Dead h2
  have := seed_carriers_nonneg Dead h2
  linarith

lemma seed_fraction_nonneg (Healthy Dead Immune : ℚ) (h1 : 0 ≤ Healthy)
    (h2 : 0 ≤ Dead) (h3 : 0 ≤ Immune) (h4 : 0 < Healthy + Dead + Immune) :
    ∀ i, 0 ≤ seed_fraction Healthy Dead Immune i := by
  intro i
  have hT := seed_total_pos Healthy Dead Immune h1 h2 h3 h4
  have := seed_hospitalizable_nonneg Dead h2
  have := seed_symptomatic_nonneg Dead h2
  have := seed_carriers_nonneg Dead h2
  unfold seed_fraction seed_vector
  fin_cases i <;> simp [Matrix.vecHead, Matrix.vecTail] <;> positivity

lemma seed_fraction_sum (Healthy Dead Immune : ℚ)
    (hT : seed_total Healthy Dead Immune ≠ 0) :
    (∑ i, seed_fraction Healthy Dead Immune i) = 1 := by
  unfold seed_fraction seed_vector
  rw [Fin.sum_univ_six]
  simp [Matrix.vecHead, Matrix.vecTail]
  rw [div_add_div_same, div_add_div_same, div_add_div_same, div_add_div_same,
    div_add_div_same]
  rw [show Healthy + seed_carriers Dead + seed_symptomatic Dead +
      seed_hospitalizable Dead + Dead + Immune = seed_total Healthy Dead Immune
    from rfl]
  exact div_self hT

lemma seed_fraction_pool_pos (Healthy Dead Immune : ℚ) (h1 : 0 ≤ Healthy)
    (h2 : 0 ≤ Dead) (h3 : 0 ≤ Immune) (h4 : 0 < Healthy + Dead + Immune) :
    0 < contact_pool (seed_fraction Healthy Dead Immune) := by
  have hT := seed_total_pos Healthy Dead Immune h1 h2 h3 h4
  have hpool : contact_pool (seed_fraction Healthy Dead Immune) =
      (Healthy + seed_carriers Dead + seed_symptomatic Dead +
        seed_hospitalizable Dead + Immune) / seed_total Healthy Dead Immune := by
    unfold contact_pool seed_fraction seed_vector
    simp [Matrix.vecHead, Matrix.vecTail]
    ring
  rw [hpool]
  apply div_pos _ hT
  rcases eq_or_lt_of_le h2 with hD0 | hDpos
  · subst hD0
    have hc0 : seed_carriers 0 = 0 := by rw [seed_carriers_eq]; ring
    have hs0 : seed_symptomatic 0 = 0 := by rw [seed_symptomatic_eq]; ring
    have hh0 : seed_hospitalizable 0 = 0 := by rw [seed_hospitalizable_eq]; ring
    rw [hc0, hs0, hh0]
    linarith
  · have hhpos : 0 < seed_hospitalizable Dead := by
      rw [seed_hospitalizable_eq]; positivity
    have := seed_carriers_nonneg Dead h2
    have := seed_symptomatic_nonneg Dead h2
    linarith

/-! ### Facts about the full simulation -/

lemma list_get_map {α β : Type} (f : α → β) (l : List α) (k : ℕ)
    (hk : k < (l.map f).length) :
    (l.map f).get ⟨k, hk⟩ = f (l.get ⟨k, by simpa using hk⟩) := by
  simp [List.get_eq_getElem, List.getElem_map]

/-- Running `simulate_covid19` on nonnegative seeds with positive total:
the run succeeds, its internal fraction trajectory has one entry per day,
every internal entry is a nonnegative vector summing exactly to `1`, the
reported trajectory is its image under `report`, the first internal entry is
the one-step image of the normalized seed, and the internal Dead and Immune
fractions never decrease between consecutive days. -/
lemma simulate_spec (Healthy Dead Immune : ℚ) (total_days sda lda : ℕ)
    (h1 : 0 ≤ Healthy) (h2 : 0 ≤ Dead) (h3 : 0 ≤ Immune)
    (h4 : 0 < Healthy + Dead + Immune) :
    ∃ ptr, sim_loop sda lda total_days 0 0 (seed_fraction Healthy Dead Immune) =
        some ptr ∧
      simulate_covid19 Healthy Dead Immune total_days sda lda =
        some (ptr.map (report (seed_total Healthy Dead Immune))) ∧
      ptr.length = total_days ∧
      (∀ (k : ℕ) (hk : k < ptr.length),
        (∀ i, 0 ≤ ptr.get ⟨k, hk⟩ i) ∧ (∑ i, ptr.get ⟨k, hk⟩ i) = 1) ∧
      (∀ hk : 0 < ptr.length,
        covid_19_one_day (seed_fraction Healthy Dead Immune)
            (cm_update sda lda 0 0) = some (ptr.get ⟨0, hk⟩)) ∧
      (∀ (k : ℕ) (hk : k + 1 < ptr.length),
        ptr.get ⟨k, Nat.lt_of_succ_lt hk⟩ 4 ≤ ptr.get ⟨k + 1, hk⟩ 4 ∧
        ptr.get ⟨k, Nat.lt_of_succ_lt hk⟩ 5 ≤ ptr.get ⟨k + 1, hk⟩ 5) := by
  have hT := seed_total_pos Healthy Dead Immune h1 h2 h3 h4
  obtain ⟨ptr, hloop, hlen, hall, hhead, hmono, _⟩ :=
    sim_loop_spec sda lda total_days 0 0 (seed_fraction Healthy Dead Immune)
      (by omega) (seed_fraction_nonneg Healthy Dead Immune h1 h2 h3 h4)
      (seed_fraction_pool_pos Healthy Dead Immune h1 h2 h3 h4)
  refine ⟨ptr, hloop, ?_, hlen, ?_, hhead, hmono⟩
  · rw [simulate_covid19, if_neg (ne_of_gt hT), hloop, Option.map_some']
  · intro k hk
    refine ⟨(hall k hk).1, ?_⟩
    rw [(hall k hk).2, seed_fraction_sum Healthy Dead Immune (ne_of_gt hT)]

/-- Extension of consecutive-day monotonicity to arbitrary pairs of days. -/
lemma mono_of_consecutive {α : Type} [Preorder α] (l : List (Fin 6 → α))
    (j : Fin 6)
    (hmono : ∀ (k : ℕ) (hk : k + 1 < l.length),
      l.get ⟨k, Nat.lt_of_succ_lt hk⟩ j ≤ l.get ⟨k + 1, hk⟩ j) :
    ∀ (d d' : ℕ) (hdd' : d ≤ d') (hd' : d' < l.length),
      l.get ⟨d, lt_of_le_of_lt hdd' hd'⟩ j ≤ l.get ⟨d', hd'⟩ j := by
  intro d d' hdd'
  induction d', hdd' using Nat.le_induction with
  | base => intro hd'; exact le_refl _
  | succ d' hdd' ih =>
    intro hd'1
    exact le_trans (ih (Nat.lt_of_succ_lt hd'1)) (hmono d' hd'1)

/-- Truncated reporting keeps the total within `6` of the exact total. -/
lemma report_sum_bounds (T : ℚ) (p : Fin 6 → ℚ) (hT : 0 < T)
    (hnn : ∀ i, 0 ≤ p i) (hsum : (∑ i, p i) = 1) :
    T - 6 < (∑ j, ((report T p j : ℤ) : ℚ)) ∧
      (∑ j, ((report T p j : ℤ) : ℚ)) ≤ T := by
  have hle : ∀ j : Fin 6, ((report T p j : ℤ) : ℚ) ≤ p j * T := fun j =>
    pyInt_le _ (mul_nonneg (hnn j) hT.le)
  have hgt : ∀ j : Fin 6, p j * T - 1 < ((report T p j : ℤ) : ℚ) := fun j =>
    pyInt_gt _ (mul_nonneg (hnn j) hT.le)
  have hTsum : p 0 * T + p 1 * T + p 2 * T + p 3 * T + p 4 * T + p 5 * T = T := by
    have h := hsum
    rw [Fin.sum_univ_six] at h
    calc p 0 * T + p 1 * T + p 2 * T + p 3 * T + p 4 * T + p 5 * T
        = (p 0 + p 1 + p 2 + p 3 + p 4 + p 5) * T := by ring
      _ = 1 * T := by rw [h]
      _ = T := one_mul T
  constructor
  · rw [Fin.sum_univ_six]
    have g0 := hgt 0; have g1 := hgt 1; have g2 := hgt 2
    have g3 := hgt 3; have g4 := hgt 4; have g5 := hgt 5
    linarith
  · rw [Fin.sum_univ_six]
    have l0 := hle 0; have l1 := hle 1; have l2 := hle 2
    have l3 := hle 3; have l4 := hle 4; have l5 := hle 5
    linarith

/-! ### Claim theorems -/

/-- C1: for every population vector with non-negative entries and every
countermeasures phase index for which a matrix is actually built (the contact
pool is nonzero, so the `hc` division is defined), each of the six rows of the
transition matrix built by `covid_19_one_day` sums to exactly `1`. -/
theorem C1_row_stochastic (population : Fin 6 → ℚ) (cm : ℕ) (r0 : ℚ)
    (hr : R_0.get? cm = some r0) (hnn : ∀ i, 0 ≤ population i)
    (hpool : contact_pool population ≠ 0) (i : Fin 6) :
    ∑ j, covid_19 (hc_val r0 population) i j = 1 :=
  covid_19_row_sum _ i

theorem C1_witness :
    ∑ j, covid_19 (hc_val (5 / 2) ![1, 0, 0, 0, 0, 0]) 0 j = 1 :=
  C1_row_stochastic ![1, 0, 0, 0, 0, 0] 0 (5 / 2)
    (by show some (2.5 : ℚ) = some (5 / 2 : ℚ); norm_num)
    (by intro i; fin_cases i <;> norm_num)
    (by norm_num [contact_pool]) 0

/-- C3: for every population vector `(H, C, S, X, D, I)` with non-negative
entries and positive contact-pool denominator, `covid_19_one_day` sets
`hc = r0 / lenght_of_sickness_for_R_0 * ((C + S + X) / (H + C + S + X + I))`
and advances the population by the vector–matrix product with exactly the
fixed sparsity pattern of the spec; every other matrix entry is `0`. -/
theorem C3_transition_model (population : Fin 6 → ℚ) (cm : ℕ) (r0 hcv : ℚ)
    (hr : R_0.get? cm = some r0) (hnn : ∀ i, 0 ≤ population i)
    (hpool : 0 < contact_pool population)
    (hhc : hcv = r0 / lenght_of_sickness_for_R_0 *
      ((population 1 + population 2 + population 3) /
        (population 0 + population 1 + population 2 + population 3 +
          population 5))) :
    covid_19_one_day population cm =
      some (fun j => ∑ i, population i *
        (![![1 - hcv, hcv, 0, 0, 0, 0],
           ![0, 1 - cs - ci, cs, 0, 0, ci],
           ![0, 0, 1 - sx - si, sx, 0, si],
           ![0, 0, 0, 1 - xd - xi, xd, xi],
           ![0, 0, 0, 0, 1, 0],
           ![0, 0, 0, 0, 0, 1]] : Fin 6 → Fin 6 → ℚ) i j) := by
  have hcv_eq : hcv = hc_val r0 population := by rw [hhc]; rfl
  rw [hcv_eq]
  unfold covid_19_one_day
  rw [hr, Option.some_bind, if_neg (ne_of_gt hpool)]
  rfl

theorem C3_witness :
    covid_19_one_day ![9 / 10, 1 / 10, 0, 0, 0, 0] 0 =
      some (fun j => ∑ i, (![9 / 10, 1 / 10, 0, 0, 0, 0] : Fin 6 → ℚ) i *
        (![![1 - 1 / 80, 1 / 80, 0, 0, 0, 0],
           ![0, 1 - cs - ci, cs, 0, 0, ci],
           ![0, 0, 1 - sx - si, sx, 0, si],
           ![0, 0, 0, 1 - xd - xi, xd, xi],
           ![0, 0, 0, 0, 1, 0],
           ![0, 0, 0, 0, 0, 1]] : Fin 6 → Fin 6 → ℚ) i j) :=
  C3_transition_model ![9 / 10, 1 / 10, 0, 0, 0, 0] 0 (5 / 2) (1 / 80)
    (by show some (2.5 : ℚ) = some (5 / 2 : ℚ); norm_num)
    (by intro i; fin_cases i <;> norm_num)
    (by norm_num [contact_pool])
    (by norm_num [lenght_of_sickness_for_R_0])

/-- C4, counterexample: on the fully-Dead population vector the builder does
not define `hc = 0`; the unguarded division `0/0` makes the whole day
computation invalid (numpy `nan`), so no matrix and no next population vector
is produced at all. -/
theorem C4_counterexample : covid_19_one_day ![0, 0, 0, 0, 1, 0] 0 = none := by
  unfold covid_19_one_day
  rw [show R_0.get? 0 = some (2.5 : ℚ) from rfl, Option.some_bind,
    if_pos (by norm_num [contact_pool])]

/-- C4, amended: whenever the contact-pool denominator
`H + C + S + X + I` is `0`, `covid_19_one_day` performs the division anyway
and produces no valid result (`none`), for every countermeasure index; the
code contains no `hc = 0` convention. -/
theorem C4_zero_pool_aborts (population : Fin 6 → ℚ) (cm : ℕ)
    (hpool : contact_pool population = 0) :
    covid_19_one_day population cm = none := by
  unfold covid_19_one_day
  cases hR : R_0.get? cm with
  | none => rfl
  | some r0 => rw [Option.some_bind, if_pos hpool]

theorem C4_witness : covid_19_one_day ![0, 0, 0, 0, 2, 0] 1 = none :=
  C4_zero_pool_aborts ![0, 0, 0, 0, 2, 0] 1 (by norm_num [contact_pool])

/-- C5: for every simulation run from nonnegative seeds with positive total,
the run succeeds and for every pair of days `d ≤ d'` of the reported
trajectory the Dead count (index 4) and the Immune count (index 5) at day
`d'` are at least those at day `d`. -/
theorem C5_absorbing_monotone (Healthy Dead Immune : ℚ)
    (total_days sda lda : ℕ)
    (h1 : 0 ≤ Healthy) (h2 : 0 ≤ Dead) (h3 : 0 ≤ Immune)
    (h4 : 0 < Healthy + Dead + Immune) :
    ∃ tr, simulate_covid19 Healthy Dead Immune total_days sda lda = some tr ∧
      tr.length = total_days ∧
      ∀ (d d' : ℕ) (hdd' : d ≤ d') (hd' : d' < tr.length),
        tr.get ⟨d, lt_of_le_of_lt hdd' hd'⟩ 4 ≤ tr.get ⟨d', hd'⟩ 4 ∧
        tr.get ⟨d, lt_of_le_of_lt hdd' hd'⟩ 5 ≤ tr.get ⟨d', hd'⟩ 5 := by
  have hT := seed_total_pos Healthy Dead Immune h1 h2 h3 h4
  obtain ⟨ptr, hloop, hsim, hlen, hall, hhead, hmono⟩ :=
    simulate_spec Healthy Dead Immune total_days sda lda h1 h2 h3 h4
  refine ⟨ptr.map (report (seed_total Healthy Dead Immune)), hsim,
    by simp [hlen], ?_⟩
  intro d d' hdd' hd'
  have hd'p : d' < ptr.length := by simpa using hd'
  have hdp : d < ptr.length := lt_of_le_of_lt hdd' hd'p
  have hfrac4 := mono_of_consecutive ptr 4 (fun k hk => (hmono k hk).1)
    d d' hdd' hd'p
  have hfrac5 := mono_of_consecutive ptr 5 (fun k hk => (hmono k hk).2)
    d d' hdd' hd'p
  rw [list_get_map, list_get_map]
  constructor
  · show pyInt (ptr.get ⟨d, hdp⟩ 4 * seed_total Healthy Dead Immune) ≤
      pyInt (ptr.get ⟨d', hd'p⟩ 4 * seed_total Healthy Dead Immune)
    exact pyInt_mono _ _ (mul_nonneg ((hall d hdp).1 4) hT.le)
      (mul_le_mul_of_nonneg_right hfrac4 hT.le)
  · show pyInt (ptr.get ⟨d, hdp⟩ 5 * seed_total Healthy Dead Immune) ≤
      pyInt (ptr.get ⟨d', hd'p⟩ 5 * seed_total Healthy Dead Immune)
    exact pyInt_mono _ _ (mul_nonneg ((hall d hdp).1 5) hT.le)
      (mul_le_mul_of_nonneg_right hfrac5 hT.le)

theorem C5_witness :
    ∃ tr, simulate_covid19 1 1 0 2 0 0 = some tr ∧
      tr.length = 2 ∧
      ∀ (d d' : ℕ) (hdd' : d ≤ d') (hd' : d' < tr.length),
        tr.get ⟨d, lt_of_le_of_lt hdd' hd'⟩ 4 ≤ tr.get ⟨d', hd'⟩ 4 ∧
        tr.get ⟨d, lt_of_le_of_lt hdd' hd'⟩ 5 ≤ tr.get ⟨d', hd'⟩ 5 :=
  C5_absorbing_monotone 1 1 0 2 0 0 (by norm_num) (by norm_num) (by norm_num)
    (by norm_num)

/-- C6: with the phases ordered by increasing onset
(`social_distance_after ≤ lockdown_after`), the countermeasure value the
simulation loop uses on day `d` (`loopCm`, the chain of the loop's
`cm_update` steps from day 0) equals the spec's "last phase whose onset is
`≤ d`" selection, and it is non-decreasing in `d`. -/
theorem C6_phase_selection (sda lda : ℕ) (hord : sda ≤ lda) :
    (∀ d, loopCm sda lda d = spec_active_phase sda lda d) ∧
    (∀ d d', d ≤ d' → loopCm sda lda d ≤ loopCm sda lda d') := by
  refine ⟨fun d => by rw [loopCm_eq, spec_active_phase_eq], fun d d' h => ?_⟩
  rw [loopCm_eq, loopCm_eq]
  split_ifs <;> omega

theorem C6_witness : loopCm 3 5 4 = spec_active_phase 3 5 4 :=
  (C6_phase_selection 3 5 (by norm_num)).1 4

/-- C7, counterexample: the Parameter Derivation of the program is the bare
arithmetic rule `derived_rate`; it performs no validation whatsoever.  At the
violating configuration "all carriers develop symptoms, after one day on
average; none become immune directly" the two Carrier exit rates derived by
the program sum to `1` (not `< 1`) and the derivation still returns them —
no `ConfigurationError` (or any failure) occurs anywhere in the program. -/
theorem C7_counterexample :
    derived_rate 1 1 + derived_rate 0 10 = 1 ∧
      ¬(derived_rate 1 1 + derived_rate 0 10 < 1) := by
  constructor <;> norm_num [derived_rate]

/-- C7, amended: the program performs no configuration-time validation and
has no `ConfigurationError`; for the program's actual hardcoded constants the
same-origin exit probabilities do satisfy the required strict bounds
`cs + ci < 1`, `sx + si < 1` and `xd + xi < 1`. -/
theorem C7_exit_probabilities_lt_one :
    cs + ci < 1 ∧ sx + si < 1 ∧ xd + xi < 1 := by
  refine ⟨?_, ?_, ?_⟩
  · rw [cs_eq, ci_eq]; norm_num
  · rw [sx_eq, si_eq]; norm_num
  · rw [xd_eq, xi_eq]; norm_num

/-- C8, counterexample: with `death_fraction_given_hospitalized = 0` the seed
back-derivation fails with an (uncaught) `ZeroDivisionError`, which is not a
`ConfigurationError`; the program has no such validation. -/
theorem C8_counterexample :
    back_derive 100 0 (32761 / 122450) (2 / 5) =
        Except.error PyError.zeroDivisionError ∧
      back_derive 100 0 (32761 / 122450) (2 / 5) ≠
        Except.error PyError.configurationError := by
  constructor
  · unfold back_derive; rw [if_pos rfl]
  · unfold back_derive; rw [if_pos rfl]
    intro h
    exact PyError.noConfusion (Except.error.inj h)

/-- C8, amended: a zero `death_fraction_given_hospitalized` makes the
back-derivation fail with a raw `ZeroDivisionError` (Python float semantics),
and no input whatsoever makes it fail with a `ConfigurationError`, because
the program contains no such validation. -/
theorem C8_zero_ratio_division (Dead phs psc : ℚ) :
    back_derive Dead 0 phs psc = Except.error PyError.zeroDivisionError ∧
    ∀ pdh : ℚ, back_derive Dead pdh phs psc ≠
      Except.error PyError.configurationError := by
  constructor
  · unfold back_derive; rw [if_pos rfl]
  · intro pdh h
    unfold back_derive at h
    split_ifs at h <;> simp at h

/-- C2, amended: the internal population-fraction vector is conserved
exactly (every day it sums to `1`, the normalized seed total), but the
reported trajectory applies `int(...)` truncation entrywise, so each reported
day's sum only satisfies `seed_total - 6 < sum ≤ seed_total` — an absolute
error of up to `6` units, not a `1e-6` relative tolerance. -/
theorem C2_conservation (Healthy Dead Immune : ℚ) (total_days sda lda : ℕ)
    (h1 : 0 ≤ Healthy) (h2 : 0 ≤ Dead) (h3 : 0 ≤ Immune)
    (h4 : 0 < Healthy + Dead + Immune) :
    ∃ ptr, sim_loop sda lda total_days 0 0 (seed_fraction Healthy Dead Immune) =
        some ptr ∧
      simulate_covid19 Healthy Dead Immune total_days sda lda =
        some (ptr.map (report (seed_total Healthy Dead Immune))) ∧
      (∀ (k : ℕ) (hk : k < ptr.length), (∑ i, ptr.get ⟨k, hk⟩ i) = 1) ∧
      (∀ v ∈ ptr.map (report (seed_total Healthy Dead Immune)),
        seed_total Healthy Dead Immune - 6 < (∑ j, (v j : ℚ)) ∧
          (∑ j, (v j : ℚ)) ≤ seed_total Healthy Dead Immune) := by
  have hT := seed_total_pos Healthy Dead Immune h1 h2 h3 h4
  obtain ⟨ptr, hloop, hsim, hlen, hall, hhead, hmono⟩ :=
    simulate_spec Healthy Dead Immune total_days sda lda h1 h2 h3 h4
  refine ⟨ptr, hloop, hsim, fun k hk => (hall k hk).2, ?_⟩
  intro v hv
  obtain ⟨p, hp, rfl⟩ := List.mem_map.mp hv
  obtain ⟨⟨k, hk⟩, rfl⟩ := List.mem_iff_get.mp hp
  exact report_sum_bounds (seed_total Healthy Dead Immune) _ hT
    (hall k hk).1 (hall k hk).2

theorem C2_witness :
    ∃ ptr, sim_loop 10 20 3 0 0 (seed_fraction 1000 1 0) = some ptr ∧
      simulate_covid19 1000 1 0 3 10 20 =
        some (ptr.map (report (seed_total 1000 1 0))) ∧
      (∀ (k : ℕ) (hk : k < ptr.length), (∑ i, ptr.get ⟨k, hk⟩ i) = 1) ∧
      (∀ v ∈ ptr.map (report (seed_total 1000 1 0)),
        seed_total 1000 1 0 - 6 < (∑ j, (v j : ℚ)) ∧
          (∑ j, (v j : ℚ)) ≤ seed_total 1000 1 0) :=
  C2_conservation 1000 1 0 3 10 20 (by norm_num) (by norm_num) (by norm_num)
    (by norm_num)

/-- C10: every reported vector is the entrywise truncation
`int(fraction * all_population)` of the internal fraction vector (`report`);
consequently each reported day's sum lies in `(seed_total - 6, seed_total]`,
and the first reported entry is the image of the population after one
transition step applied to the normalized seed — not the seed vector. -/
theorem C10_truncated_reporting (Healthy Dead Immune : ℚ)
    (total_days sda lda : ℕ)
    (h1 : 0 ≤ Healthy) (h2 : 0 ≤ Dead) (h3 : 0 ≤ Immune)
    (h4 : 0 < Healthy + Dead + Immune) :
    ∃ ptr, sim_loop sda lda total_days 0 0 (seed_fraction Healthy Dead Immune) =
        some ptr ∧
      simulate_covid19 Healthy Dead Immune total_days sda lda =
        some (ptr.map (report (seed_total Healthy Dead Immune))) ∧
      (∀ p ∈ ptr, report (seed_total Healthy Dead Immune) p =
        fun j => pyInt (p j * seed_total Healthy Dead Immune)) ∧
      (∀ v ∈ ptr.map (report (seed_total Healthy Dead Immune)),
        (∑ j, (v j : ℚ)) ≤ seed_total Healthy Dead Immune ∧
          seed_total Healthy Dead Immune - 6 < (∑ j, (v j : ℚ))) ∧
      (0 < total_days → ∃ p1 rest, ptr = p1 :: rest ∧
        covid_19_one_day (seed_fraction Healthy Dead Immune)
          (cm_update sda lda 0 0) = some p1) := by
  have hT := seed_total_pos Healthy Dead Immune h1 h2 h3 h4
  obtain ⟨ptr, hloop, hsim, hlen, hall, hhead, hmono⟩ :=
    simulate_spec Healthy Dead Immune total_days sda lda h1 h2 h3 h4
  refine ⟨ptr, hloop, hsim, fun p _ => rfl, ?_, ?_⟩
  · intro v hv
    obtain ⟨p, hp, rfl⟩ := List.mem_map.mp hv
    obtain ⟨⟨k, hk⟩, rfl⟩ := List.mem_iff_get.mp hp
    exact ⟨(report_sum_bounds (seed_total Healthy Dead Immune) _ hT
        (hall k hk).1 (hall k hk).2).2,
      (report_sum_bounds (seed_total Healthy Dead Immune) _ hT
        (hall k hk).1 (hall k hk).2).1⟩
  · intro hdays
    have hlen0 : 0 < ptr.length := by rw [hlen]; exact hdays
    match ptr, hlen0 with
    | p1 :: rest, _ =>
      exact ⟨p1, rest, rfl, hhead (by simp)⟩

theorem C10_witness :
    ∃ ptr, sim_loop 0 0 1 0 0 (seed_fraction 2 1 1) = some ptr ∧
      simulate_covid19 2 1 1 1 0 0 =
        some (ptr.map (report (seed_total 2 1 1))) ∧
      (∀ p ∈ ptr, report (seed_total 2 1 1) p =
        fun j => pyInt (p j * seed_total 2 1 1)) ∧
      (∀ v ∈ ptr.map (report (seed_total 2 1 1)),
        (∑ j, (v j : ℚ)) ≤ seed_total 2 1 1 ∧
          seed_total 2 1 1 - 6 < (∑ j, (v j : ℚ))) ∧
      (0 < 1 → ∃ p1 rest, ptr = p1 :: rest ∧
        covid_19_one_day (seed_fraction 2 1 1) (cm_update 0 0 0 0) = some p1) :=
  C10_truncated_reporting 2 1 1 1 0 0 (by norm_num) (by norm_num) (by norm_num)
    (by norm_num)

lemma seed_total_1_1_0 : seed_total 1 1 0 = 156189609319 / 2086023914 := by
  rw [seed_total, seed_carriers_eq, seed_symptomatic_eq, seed_hospitalizable_eq]
  norm_num

lemma seed_fraction_1_1_0 : seed_fraction 1 1 0 =
    ![2086023914 / 156189609319, 79582753791 / 156189609319,
      53055169194 / 156189609319, 19379638506 / 156189609319,
      2086023914 / 156189609319, 0] := by
  funext j
  fin_cases j <;>
    simp [seed_fraction, seed_vector, seed_total_1_1_0, seed_carriers_eq,
      seed_symptomatic_eq, seed_hospitalizable_eq, Matrix.vecHead,
      Matrix.vecTail] <;>
    norm_num

lemma one_day_1_1_0 : covid_19_one_day (seed_fraction 1 1 0) 0 =
    some ![1127298923242789752793 / 96277515196256401556780,
      215003765754630243894969 / 481387575981282007783900,
      175066380537703173 / 525948985680567625,
      132153012616236 / 1017309450059125,
      51137003281 / 3123792186380,
      26307990035208711 / 420759188544454100] := by
  have hr : R_0.get? 0 = some (5 / 2 : ℚ) := by
    show some (2.5 : ℚ) = some (5 / 2 : ℚ)
    norm_num
  have hpool : contact_pool (seed_fraction 1 1 0) ≠ 0 := by
    rw [seed_fraction_1_1_0]
    unfold contact_pool
    norm_num
  have hhcL : hc_val (5 / 2)
      ![2086023914 / 156189609319, 79582753791 / 156189609319,
        53055169194 / 156189609319, 19379638506 / 156189609319,
        2086023914 / 156189609319, 0] = 152017561491 / 1232828683240 := by
    unfold hc_val contact_pool lenght_of_sickness_for_R_0
    norm_num
  rw [covid_19_one_day_eq (seed_fraction 1 1 0) 0 (5 / 2) hr hpool]
  congr 1
  funext j
  fin_cases j <;>
    simp only [seed_fraction_1_1_0, hhcL, cs_eq, ci_eq, sx_eq, si_eq, xd_eq,
      xi_eq, Matrix.cons_val_zero, Matrix.cons_val_one, Matrix.head_cons,
      Matrix.cons_val_two, Matrix.cons_val_three, Matrix.cons_val_four,
      cons_val_five, Matrix.vecHead, Matrix.vecTail] <;>
    norm_num

/-- C2, counterexample: for the run seeded with `Healthy = 1`, `Dead = 1`,
`Immune = 0` (total back-derived seed population about `74.87`), one
simulated day reports the vector `[0, 33, 24, 9, 1, 4]`, whose sum `71`
differs from the seed total by about `3.87` — far more than the claimed
`1e-6` relative tolerance. -/
theorem C2_counterexample :
    simulate_covid19 1 1 0 1 100 100 = some [![0, 33, 24, 9, 1, 4]] ∧
      seed_total 1 1 0 / 1000000 <
        seed_total 1 1 0 - (∑ j, (((![0, 33, 24, 9, 1, 4] : Fin 6 → ℤ)) j : ℚ)) := by
  constructor
  · rw [simulate_covid19, if_neg (by rw [seed_total_1_1_0]; norm_num)]
    have hcm : cm_update 100 100 0 0 = 0 := by rw [cm_update_eq]; norm_num
    have hloop : sim_loop 100 100 1 0 0 (seed_fraction 1 1 0) =
        some [![1127298923242789752793 / 96277515196256401556780,
          215003765754630243894969 / 481387575981282007783900,
          175066380537703173 / 525948985680567625,
          132153012616236 / 1017309450059125,
          51137003281 / 3123792186380,
          26307990035208711 / 420759188544454100]] := by
      show (covid_19_one_day (seed_fraction 1 1 0)
          (cm_update 100 100 0 0)).bind _ = _
      rw [hcm, one_day_1_1_0, Option.some_bind]
      rfl
    rw [hloop, Option.map_some']
    congr 1
    show [report (seed_total 1 1 0) _] = _
    congr 1
    funext j
    fin_cases j <;>
      simp only [report] <;>
      rw [seed_total_1_1_0] <;>
      rw [pyInt_eq_floor _ (by norm_num)] <;>
      norm_num
  · rw [seed_total_1_1_0, Fin.sum_univ_six]
    norm_num

end Covid
